import Mathlib

/-!
Verification of the PDF-splitting pipeline of `src/PDFExcel.py`
(class `PDFSplitterApp`): filename sanitization, the split loop with its
count check and overwrite semantics, the name-source reader with its
encoding fallback chain, and the pandas first-column coercion used by
`start_split`.  Machine strings are `String`, byte samples are `List Nat`
(each element one byte), and the output directory is an association list
from path to written document.
-/

namespace PDFSplitter

/-! ## Filename sanitizer (`split_pdf`, lines 118-121) -/

/-- An executable under-approximation of the Python predicate `c.isalnum()`
covering the ranges every concrete character in this file lives in: ASCII
digits and letters, Latin-1 letters (U+00C0-U+00FF minus the two operators
U+00D7 and U+00F7), and the CJK Unified Ideographs block U+4E00-U+9FFF.
Python classifies by the full Unicode Letter and Number categories, a
table carried by the runtime; statements about that full classification
are made through `keepCharWith` and `sanitizeWith` below, which take the
test as a parameter instead of fixing it to these ranges. -/
def pyIsAlnum (c : Char) : Bool :=
  (('0' ≤ c && c ≤ '9') || ('A' ≤ c && c ≤ 'Z') || ('a' ≤ c && c ≤ 'z'))
  || (0xC0 ≤ c.toNat && c.toNat ≤ 0xFF && c.toNat != 0xD7 && c.toNat != 0xF7)
  || (0x4E00 ≤ c.toNat && c.toNat ≤ 0x9FFF)

/-- Models the whitespace stripped by Python `str.strip()` on the common
code points: ASCII space, tab, newline, carriage return, vertical tab, form
feed, no-break space and the ideographic space U+3000. -/
def pyIsSpace (c : Char) : Bool :=
  c = ' ' || c = '\t' || c = '\n' || c = '\r'
  || c.toNat = 0x0B || c.toNat = 0x0C || c.toNat = 0xA0 || c.toNat = 0x3000

/-- Models `str(name).strip()`: drop leading and trailing whitespace. -/
def pyStrip (s : String) : String :=
  (((s.toList.dropWhile pyIsSpace).reverse.dropWhile pyIsSpace).reverse).asString

/-- The character filter of line 120 of the source:
`c.isalnum() or c in (' ', '_', '-', '(', ')', '（', '）')`. -/
def keepChar (c : Char) : Bool :=
  pyIsAlnum c || c = ' ' || c = '_' || c = '-'
  || c = '(' || c = ')' || c = '（' || c = '）'

/-- The joined filtered characters of lines 118-120:
`"".join(c for c in str(name).strip() if ...)`. -/
def sanitizeFiltered (name : String) : String :=
  ((pyStrip name).toList.filter keepChar).asString

/-- The full sanitizer of lines 118-121.  `idx` is the 1-based page
position: the source computes `f"page_{i+1}"` from the 0-based loop index
`i`, and every caller below passes `i + 1`.  The Python `or` falls back to
the page name exactly when the filtered string is falsy, that is empty. -/
def sanitize (name : String) (idx : Nat) : String :=
  if sanitizeFiltered name = "" then "page_" ++ toString idx else sanitizeFiltered name

/-- The character filter of line 120 with the alphanumeric test left
abstract: `isAlnum` stands for the Unicode-wide `c.isalnum()` of the
Python runtime, whose full Letter and Number tables are a library fact
outside this embedding.  `keepChar` above is the instance of this filter
at the concrete `pyIsAlnum`. -/
def keepCharWith (isAlnum : Char → Bool) (c : Char) : Bool :=
  isAlnum c || c = ' ' || c = '_' || c = '-'
  || c = '(' || c = ')' || c = '（' || c = '）'

/-- Lines 118-120 with the alphanumeric test abstract: the joined filtered
characters of the stripped name. -/
def sanitizeFilteredWith (isAlnum : Char → Bool) (name : String) : String :=
  ((pyStrip name).toList.filter (keepCharWith isAlnum)).asString

/-- Lines 118-121 with the alphanumeric test abstract; `sanitize` above is
the instance at `pyIsAlnum`. -/
def sanitizeWith (isAlnum : Char → Bool) (name : String) (idx : Nat) : String :=
  if sanitizeFilteredWith isAlnum name = "" then "page_" ++ toString idx
  else sanitizeFilteredWith isAlnum name

/-- Characters a base file name must avoid to be legal on the common file
systems: the nine Windows-reserved punctuation characters and the NUL
byte. -/
def winForbidden : List Char :=
  ['<', '>', ':', '"', '/', '\\', '|', '?', '*', Char.ofNat 0]

/-! ## Output directory model and the split loop (`split_pdf`, lines 98-131) -/

/-- The output directory: an association list from file path to the written
document, a document being its list of pages.  Page contents are abstract
(`α`). -/
abbrev FS (α : Type) : Type := List (String × List α)

/-- Writing a file: any previous file at the same path is replaced, so a
second write to one path silently overwrites the first, as `open(..., 'wb')`
does. -/
def fsWrite (fs : FS α) (p : String) (doc : List α) : FS α :=
  (List.filter (fun e => e.1 != p) fs) ++ [(p, doc)]

/-- Reading back the file at a path, if present. -/
def fsLookup (fs : FS α) (p : String) : Option (List α) :=
  (List.find? (fun e => e.1 == p) fs).map (fun e => e.2)

/-- Number of files in the directory. -/
def fsCount (fs : FS α) : Nat := List.length fs

/-- Performs a list of writes in order. -/
def applyWrites (fs : FS α) : List (String × List α) → FS α
  | [] => fs
  | w :: ws => applyWrites (fsWrite fs w.1 w.2) ws

/-- The output path of line 126:
`os.path.join(output_folder, f"{safe_name}.pdf")`, with the join modelled as
a `/` separator.  `i` is the 0-based loop index, so the sanitizer receives
`i + 1` as in the source. -/
def outPath (folder name : String) (i : Nat) : String :=
  folder ++ "/" ++ sanitize name (i + 1) ++ ".pdf"

/-- The write performed by each iteration of the loop of lines 116-128:
iteration `i` writes the single-page document `[pages[i]]` (built by
`writer.add_page(reader.pages[i])`) to `outPath`.  The recursion pairs
`names[i]` with `pages[i]` exactly as the loop `for i, name in
enumerate(names)` indexing `reader.pages[i]` does; the count check of line
107 guarantees the two lists have equal length when the loop runs. -/
def splitWrites (folder : String) : List α → List String → Nat → List (String × List α)
  | p :: ps, n :: ns, i => (outPath folder n i, [p]) :: splitWrites folder ps ns (i + 1)
  | _, _, _ => []

/-- Errors raised by `split_pdf`: `FileNotFoundError` of line 101 and the
count-mismatch `ValueError` of lines 108-111 (carrying the two counts shown
in its message). -/
inductive SplitError where
  | fileNotFound : SplitError
  | countMismatch : Nat → Nat → SplitError
deriving DecidableEq

/-- Whether a `split_pdf` outcome is the count-mismatch error. -/
def isCountMismatch : Except SplitError Unit × FS α → Bool
  | (Except.error (SplitError.countMismatch _ _), _) => true
  | _ => false

/-- The split orchestrator `split_pdf` of lines 98-131.  `pdfThere` models
`os.path.exists(pdf_path)`; `pages` are the pages of the opened reader, so
`total_pages = pages.length`; `fs` is the output directory before the call.
The function returns the outcome together with the directory after the
call: both error exits happen before any write, leaving `fs` untouched. -/
def split_pdf (pdfThere : Bool) (pages : List α) (folder : String)
    (names : List String) (fs : FS α) : Except SplitError Unit × FS α :=
  if pdfThere = false then (Except.error SplitError.fileNotFound, fs)
  else if names.length ≠ pages.length then
    (Except.error (SplitError.countMismatch names.length pages.length), fs)
  else (Except.ok (), applyWrites fs (splitWrites folder pages names 0))

/-! ## Encoding resolver (`detect_file_encoding`, lines 65-69) and the
name-source reader (`read_name_file`, lines 71-96) -/

/-- The text encodings named by the source: the chardet guess (which can be
any label, including an unrecognized one) and the five hard-coded fallback
entries of line 79. -/
inductive Encoding where
  | gb18030 : Encoding
  | gbk : Encoding
  | utf8 : Encoding
  | utf16 : Encoding
  | latin1 : Encoding
  | other : String → Encoding
deriving DecidableEq

/-- `detect_file_encoding` of lines 65-69: reads at most the first 100000
bytes of the file and hands them to chardet, modelled as an arbitrary total
function `chardet` on byte samples. -/
def detect_file_encoding (chardet : List Nat → Encoding) (file : List Nat) : Encoding :=
  chardet (file.take 100000)

/-- The candidate list of line 79:
`[encoding, 'gb18030', 'gbk', 'utf-8', 'utf-16', 'latin1']`. -/
def encodingsToTry (guess : Encoding) : List Encoding :=
  [guess, Encoding.gb18030, Encoding.gbk, Encoding.utf8, Encoding.utf16, Encoding.latin1]

/-- The Python `latin-1` codec: total and byte-preserving, each byte `b`
becomes the code point `U+00b`.  The `% 256` only states totality; no
theorem applies it to a value at or above 256. -/
def latin1Decode (bytes : List Nat) : String :=
  (bytes.map (fun b => Char.ofNat (b % 256))).asString

/-- Decoding a byte sample under one candidate.  The `latin1` codec is
fixed to the byte-preserving total decoder above; every other codec is
abstract (`dec`), returning `none` on a `UnicodeDecodeError`. -/
def decodeWith (dec : Encoding → List Nat → Option String) :
    Encoding → List Nat → Option String
  | Encoding.latin1, bytes => some (latin1Decode bytes)
  | e, bytes => dec e bytes

/-- Outcome of one `pd.read_csv(file_path, encoding=enc)` attempt inside
the loop of lines 81-87: a parsed table, a `UnicodeDecodeError` (the
`continue` branch), or any other exception (the `break` branch). -/
inductive CsvOutcome (β : Type) where
  | success : β → CsvOutcome β
  | decodeError : CsvOutcome β
  | otherError : CsvOutcome β
deriving DecidableEq

/-- How the `for enc in encodings_to_try` loop of lines 81-87 exits:
an early `return`, a `break`, or normal exhaustion of the candidates. -/
inductive CsvLoopExit (β : Type) where
  | returned : β → CsvLoopExit β
  | broke : CsvLoopExit β
  | exhausted : CsvLoopExit β
deriving DecidableEq

/-- The loop of lines 81-87 over the remaining candidates. -/
def csvLoop (attempt : Encoding → CsvOutcome β) : List Encoding → CsvLoopExit β
  | [] => CsvLoopExit.exhausted
  | e :: rest =>
    match attempt e with
    | CsvOutcome.success b => CsvLoopExit.returned b
    | CsvOutcome.decodeError => csvLoop attempt rest
    | CsvOutcome.otherError => CsvLoopExit.broke

/-- The candidates the loop actually attempts, in order: every candidate up
to and including the first one that returns or breaks. -/
def csvAttempted (attempt : Encoding → CsvOutcome β) : List Encoding → List Encoding
  | [] => []
  | e :: rest =>
    match attempt e with
    | CsvOutcome.decodeError => e :: csvAttempted attempt rest
    | _ => [e]

/-- A `read_csv` attempt assembled from a decode layer and a parse layer:
a decode failure is the `UnicodeDecodeError` branch, a successful decode
followed by a parse failure (`parse` returning `none`) is the other-error
branch. -/
def mkAttempt (dec : Encoding → List Nat → Option String) (parse : String → Option β)
    (bytes : List Nat) (e : Encoding) : CsvOutcome β :=
  match decodeWith dec e bytes with
  | none => CsvOutcome.decodeError
  | some s =>
    match parse s with
    | some b => CsvOutcome.success b
    | none => CsvOutcome.otherError

/-- Extension classification of the names path, as tested by
`file_path.lower().endswith(...)` on lines 77 and 90.  The three suffixes
`.csv`, `.xls`, `.xlsx` are mutually exclusive (they differ in their last
character), so one classification per path is faithful. -/
inductive FileExt where
  | csv : FileExt
  | xls : FileExt
  | xlsx : FileExt
  | other : String → FileExt
deriving DecidableEq

/-- Line 77 test. -/
def extIsCsv : FileExt → Bool
  | FileExt.csv => true
  | _ => false

/-- Line 90 test. -/
def extIsExcel : FileExt → Bool
  | FileExt.xls => true
  | FileExt.xlsx => true
  | _ => false

/-- Errors raised by `read_name_file`: the `FileNotFoundError` of line 74,
the Excel `ValueError` of line 94 (message attached), and the generic
`ValueError` of line 96 (message `无法读取文件，请检查文件格式和编码`),
which is reached both after the CSV loop ends without returning and for an
unrecognized extension. -/
inductive NameFileError where
  | notFound : NameFileError
  | excelFailed : String → NameFileError
  | unreadable : NameFileError
deriving DecidableEq

/-- `read_name_file` of lines 71-96.  `pathThere` models
`os.path.exists(file_path)`; `attempt` is the per-encoding `read_csv`
outcome; `guess` is the `detect_file_encoding` result; `excel` is the
`pd.read_excel` outcome for spreadsheet paths.  Control flow mirrors the
source: a CSV path runs the candidate loop and returns only on success;
on `break` or exhaustion it falls through to the extension checks, where a
`.csv` path fails line 90 and reaches the line-96 raise. -/
def read_name_file (pathThere : Bool) (ext : FileExt)
    (attempt : Encoding → CsvOutcome β) (guess : Encoding)
    (excel : Except String β) : Except NameFileError β :=
  if pathThere = false then Except.error NameFileError.notFound
  else
    match (if extIsCsv ext then some (csvLoop attempt (encodingsToTry guess)) else none) with
    | some (CsvLoopExit.returned b) => Except.ok b
    | _ =>
      if extIsExcel ext then
        match excel with
        | Except.ok b => Except.ok b
        | Except.error msg => Except.error (NameFileError.excelFailed msg)
      else Except.error NameFileError.unreadable

/-! ## Pandas table semantics used by `start_split` (lines 150-156) -/

/-- A parsed pandas frame: the column header and the data rows.  A cell is
`none` when empty or missing, which pandas stores as the float `NaN`. -/
structure DataFrame where
  header : List (Option String)
  rows : List (List (Option String))
deriving DecidableEq

/-- Models the table-level result shared by `pd.read_csv` (line 83) and
`pd.read_excel` (line 92) under their default header inference: the first
raw row becomes the column header, the remaining rows become the data; a
table with no rows at all fails to parse (pandas `EmptyDataError`). -/
def pandasReadTable (raw : List (List (Option String))) : Option DataFrame :=
  match raw with
  | [] => none
  | h :: t => some (DataFrame.mk h t)

/-- The `df.empty` test of line 151: no data rows. -/
def dfEmpty (df : DataFrame) : Bool := df.rows.isEmpty

/-- The cell-to-string coercion inside `.astype(str)` of line 156: an empty
cell is the float `NaN`, whose string form is the literal `nan`. -/
def pdAstypeStr : Option String → String
  | none => "nan"
  | some s => s

/-- Line 156, `df.iloc[:, 0].astype(str).tolist()`: the first-column cell
of each data row, coerced to a string. -/
def firstColumnNames (df : DataFrame) : List String :=
  df.rows.map (fun r => pdAstypeStr (r.getD 0 none))

/-! ## Helper lemmas about the sanitizer -/

theorem string_data_append (a b : String) : (a ++ b).data = a.data ++ b.data := rfl

theorem page_prefix_ne_empty (s : String) : "page_" ++ s ≠ "" := by
  intro h
  have h2 : ("page_" ++ s).data = [] := congrArg String.data h
  rw [string_data_append] at h2
  exact absurd (List.append_eq_nil.mp h2).1 (by decide)

theorem digitChar_keep (m : Nat) (h : m < 10) : keepChar (Nat.digitChar m) = true := by
  interval_cases m <;> decide

theorem toDigitsCore_keep (f : Nat) : ∀ (n : Nat) (acc : List Char),
    (∀ c ∈ acc, keepChar c = true) →
    ∀ c ∈ Nat.toDigitsCore 10 f n acc, keepChar c = true := by
  induction f with
  | zero =>
    intro n acc hacc c hc
    simp only [Nat.toDigitsCore] at hc
    exact hacc c hc
  | succ f ih =>
    intro n acc hacc c hc
    simp only [Nat.toDigitsCore] at hc
    by_cases h : n / 10 = 0
    · rw [if_pos h] at hc
      rcases List.mem_cons.mp hc with h1 | h2
      · subst h1; exact digitChar_keep _ (Nat.mod_lt _ (by norm_num))
      · exact hacc c h2
    · rw [if_neg h] at hc
      refine ih _ _ ?_ c hc
      intro c' hc'
      rcases List.mem_cons.mp hc' with h1 | h2
      · subst h1; exact digitChar_keep _ (Nat.mod_lt _ (by norm_num))
      · exact hacc c' h2

theorem repr_keep (n : Nat) : ∀ c ∈ (Nat.repr n).data, keepChar c = true := by
  intro c hc
  exact toDigitsCore_keep (n + 1) n [] (by intro c h; cases h) c hc

theorem pageName_keep (i : Nat) : ∀ c ∈ ("page_" ++ toString i).data, keepChar c = true := by
  intro c hc
  rw [string_data_append] at hc
  rcases List.mem_append.mp hc with h1 | h2
  · rcases h1 with _ | ⟨_, _ | ⟨_, _ | ⟨_, _ | ⟨_, _ | ⟨_, h⟩⟩⟩⟩⟩ <;> first | decide | cases h
  · exact repr_keep i c h2

theorem keep_not_forbidden (c : Char) (h : keepChar c = true) : c ∉ winForbidden := by
  intro hc
  fin_cases hc <;> exact absurd h (by decide)

theorem sanitizeFiltered_data (name : String) :
    (sanitizeFiltered name).data = (pyStrip name).toList.filter keepChar := rfl

/-- C3, amended: the sanitizer trims, filters through `keepChar`, falls back
to the page name when the filtered string is empty (and only returns the
filtered string otherwise), and always yields a non-empty base name free of
forbidden file-name characters; the spec scenario evaluates to the
fallback.  The `exactly when` direction of the original claim is dropped:
see the counterexample. -/
theorem c3_sanitize_amended (name : String) (i : Nat) :
    sanitize name i ≠ ""
    ∧ (sanitizeFiltered name = "" → sanitize name i = "page_" ++ toString i)
    ∧ (sanitizeFiltered name ≠ "" → sanitize name i = sanitizeFiltered name)
    ∧ (∀ c ∈ (sanitize name i).toList, keepChar c = true)
    ∧ (∀ c ∈ (sanitize name i).toList, c ∉ winForbidden)
    ∧ sanitize "??/\\<>" i = "page_" ++ toString i := by
  have hkeep : ∀ c ∈ (sanitize name i).toList, keepChar c = true := by
    intro c hc
    by_cases h : sanitizeFiltered name = ""
    · rw [sanitize, if_pos h] at hc
      exact pageName_keep i c hc
    · rw [sanitize, if_neg h] at hc
      have : c ∈ (pyStrip name).toList.filter keepChar := by
        rw [← sanitizeFiltered_data]; exact hc
      exact (List.mem_filter.mp this).2
  refine ⟨?_, ?_, ?_, hkeep, ?_, ?_⟩
  · by_cases h : sanitizeFiltered name = ""
    · rw [sanitize, if_pos h]; exact page_prefix_ne_empty _
    · rw [sanitize, if_neg h]; exact h
  · intro h; rw [sanitize, if_pos h]
  · intro h; rw [sanitize, if_neg h]
  · intro c hc; exact keep_not_forbidden c (hkeep c hc)
  · rw [sanitize, if_pos (by decide)]

/-- Witness for C3: the spec scenario falls back to the page name, and an
ordinary name is trimmed and kept. -/
theorem c3_sanitize_amended_witness :
    sanitize "??/\\<>" 7 = "page_" ++ toString 7
    ∧ sanitize " Invoice 9 " 2 = "Invoice 9" := by
  refine ⟨(c3_sanitize_amended "x" 7).2.2.2.2.2, ?_⟩
  have h := (c3_sanitize_amended " Invoice 9 " 2).2.2.1 (by decide)
  rw [h]; decide

/-- C3, counterexample to `returns page_<i> exactly when the filtered
result is empty`: on the name `page_1` at position 1 the filtered result is
non-empty, yet the returned value still equals `page_<1>`. -/
theorem c3_sanitize_exactly_when_counterexample :
    sanitize "page_1" 1 = "page_" ++ toString 1 ∧ sanitizeFiltered "page_1" ≠ "" := by
  exact ⟨by decide, by decide⟩

/-- C10: the filter of line 120 preserves every character its alphanumeric
test accepts, for an arbitrary test — so under the Unicode-wide
`str.isalnum` of the Python runtime every character classified as a
Unicode letter or digit survives from the stripped name to the output base
name, whatever block it lives in.  The concrete model is exactly the
instance of this parametric sanitizer at `pyIsAlnum`, and that instance
already accepts the whole CJK Unified Ideographs block, the example named
by the claim. -/
theorem c10_unicode_alnum_preserved (isalnum : Char → Bool) (c : Char)
    (hc : isalnum c = true) :
    keepCharWith isalnum c = true
    ∧ (∀ (name : String) (i : Nat), c ∈ (pyStrip name).toList →
        c ∈ (sanitizeWith isalnum name i).toList)
    ∧ keepChar = keepCharWith pyIsAlnum
    ∧ sanitize = sanitizeWith pyIsAlnum
    ∧ ∀ x : Char, 0x4E00 ≤ x.toNat → x.toNat ≤ 0x9FFF → pyIsAlnum x = true := by
  have hk : keepCharWith isalnum c = true := by simp [keepCharWith, hc]
  refine ⟨hk, ?_, rfl, rfl, ?_⟩
  · intro name i hcmem
    have hmem : c ∈ (pyStrip name).toList.filter (keepCharWith isalnum) :=
      List.mem_filter.mpr ⟨hcmem, hk⟩
    have hne : sanitizeFilteredWith isalnum name ≠ "" := by
      intro h0
      have h3 : (pyStrip name).toList.filter (keepCharWith isalnum) = [] :=
        congrArg String.data h0
      rw [h3] at hmem
      cases hmem
    rw [sanitizeWith, if_neg hne]
    exact hmem
  · intro x h1 h2
    simp only [pyIsAlnum, Bool.or_eq_true, Bool.and_eq_true, decide_eq_true_eq]
    right; exact ⟨h1, h2⟩

/-- Witness for C10: under a test accepting the Greek letter `α` — a
letter outside every range of the concrete under-approximation — that
letter survives sanitization, and the CJK character `中` lies in the block
accepted even by the concrete test. -/
theorem c10_unicode_alnum_preserved_witness :
    'α' ∈ (sanitizeWith (fun x => x.toNat == 945 || pyIsAlnum x) "α" 1).toList
    ∧ pyIsAlnum '中' = true := by
  have h := c10_unicode_alnum_preserved (fun x => x.toNat == 945 || pyIsAlnum x) 'α'
      (by decide)
  exact ⟨h.2.1 "α" 1 (by decide), h.2.2.2.2 '中' (by decide) (by decide)⟩

/-! ## Helper lemmas about the split loop and the directory model -/

theorem fsWrite_fresh (fs : FS α) (p : String) (doc : List α)
    (h : p ∉ fs.map Prod.fst) : fsWrite fs p doc = fs ++ [(p, doc)] := by
  unfold fsWrite
  congr 1
  apply List.filter_eq_self.mpr
  intro e he
  simp only [bne_iff_ne, ne_eq]
  intro hEq
  exact h (hEq ▸ List.mem_map_of_mem Prod.fst he)

theorem applyWrites_append (fs : FS α) (ws : List (String × List α))
    (h : ((fs ++ ws).map Prod.fst).Nodup) : applyWrites fs ws = fs ++ ws := by
  induction ws generalizing fs with
  | nil => simp [applyWrites]
  | cons w ws ih =>
    have hw : w.1 ∉ fs.map Prod.fst := by
      rw [List.map_append, List.nodup_append] at h
      intro hmem
      exact h.2.2 hmem (by simp)
    have h2 : ((fs ++ [w] ++ ws).map Prod.fst).Nodup := by
      rw [List.append_cons] at h
      exact h
    calc applyWrites fs (w :: ws) = applyWrites (fs ++ [w]) ws := by
          show applyWrites (fsWrite fs w.1 w.2) ws = _
          rw [fsWrite_fresh fs w.1 w.2 hw, Prod.mk.eta]
      _ = fs ++ [w] ++ ws := ih (fs ++ [w]) h2
      _ = fs ++ w :: ws := by simp

theorem fsLookup_get (ws : FS α) (h : (ws.map Prod.fst).Nodup) (i : Nat)
    (hi : i < ws.length) :
    fsLookup ws (ws.get ⟨i, hi⟩).1 = some (ws.get ⟨i, hi⟩).2 := by
  induction ws generalizing i with
  | nil => exact absurd hi (Nat.not_lt_zero i)
  | cons w ws ih =>
    cases i with
    | zero =>
      simp [fsLookup, List.find?_cons_of_pos]
    | succ i =>
      have hi2 : i < ws.length := Nat.lt_of_succ_lt_succ hi
      have hget : (w :: ws).get ⟨i + 1, hi⟩ = ws.get ⟨i, hi2⟩ := rfl
      rw [hget]
      rw [List.map_cons, List.nodup_cons] at h
      have hmem : (ws.get ⟨i, hi2⟩).1 ∈ List.map Prod.fst ws :=
        List.mem_map_of_mem Prod.fst (List.get_mem ws i hi2)
      have hne : (w.1 == (ws.get ⟨i, hi2⟩).1) = false := by
        apply beq_eq_false_iff_ne.mpr
        intro hEq
        have hEq2 : w.1 = (ws.get ⟨i, hi2⟩).1 := hEq
        rw [← hEq2] at hmem
        exact h.1 hmem
      unfold fsLookup
      have hfind : List.find? (fun e => e.1 == (ws.get ⟨i, hi2⟩).1) (w :: ws)
          = List.find? (fun e => e.1 == (ws.get ⟨i, hi2⟩).1) ws := by
        simp only [List.find?]
        rw [hne]
      rw [hfind]
      exact ih h.2 i hi2

theorem splitWrites_length (folder : String) :
    ∀ (ps : List α) (ns : List String) (i : Nat), ns.length = ps.length →
    (splitWrites folder ps ns i).length = ps.length := by
  intro ps
  induction ps with
  | nil =>
    intro ns i h
    cases ns with
    | nil => rfl
    | cons n ns => simp at h
  | cons p ps ih =>
    intro ns i h
    cases ns with
    | nil => simp at h
    | cons n ns =>
      simp only [splitWrites, List.length_cons]
      rw [ih ns (i + 1) (by simpa using h)]

theorem splitWrites_get (folder : String) :
    ∀ (ps : List α) (ns : List String) (i0 k : Nat)
      (h1 : k < ps.length) (h2 : k < ns.length)
      (hw : k < (splitWrites folder ps ns i0).length),
    (splitWrites folder ps ns i0).get ⟨k, hw⟩
      = (outPath folder (ns.get ⟨k, h2⟩) (i0 + k), [ps.get ⟨k, h1⟩]) := by
  intro ps
  induction ps with
  | nil => intro ns i0 k h1; exact absurd h1 (Nat.not_lt_zero k)
  | cons p ps ih =>
    intro ns i0 k h1 h2 hw
    cases ns with
    | nil => exact absurd h2 (Nat.not_lt_zero k)
    | cons n ns =>
      cases k with
      | zero => rfl
      | succ k =>
        have h1' : k < ps.length := Nat.lt_of_succ_lt_succ h1
        have h2' : k < ns.length := Nat.lt_of_succ_lt_succ h2
        have hw' : k < (splitWrites folder ps ns (i0 + 1)).length := by
          simpa [splitWrites] using hw
        have hstep : (splitWrites folder (p :: ps) (n :: ns) i0).get ⟨k + 1, hw⟩
            = (splitWrites folder ps ns (i0 + 1)).get ⟨k, hw'⟩ := rfl
        rw [hstep, ih ns (i0 + 1) k h1' h2' hw']
        have harith : i0 + 1 + k = i0 + (k + 1) := by omega
        rw [harith]
        rfl

/-- C2: with the source present, `split_pdf` exits with the count-mismatch
error exactly when the name count differs from the page count, and in that
case the output directory is exactly as before the call: nothing has been
written. -/
theorem c2_count_mismatch_iff (pages : List α) (names : List String)
    (folder : String) (fs : FS α) (_hne : names ≠ []) :
    (isCountMismatch (split_pdf true pages folder names fs) = true
      ↔ names.length ≠ pages.length)
    ∧ (names.length ≠ pages.length → (split_pdf true pages folder names fs).2 = fs) := by
  by_cases h : names.length = pages.length
  · refine ⟨?_, fun hn => absurd h hn⟩
    simp [split_pdf, h, isCountMismatch]
  · refine ⟨?_, fun _ => ?_⟩
    · simp [split_pdf, h, isCountMismatch]
    · simp [split_pdf, h]

/-- Witness for C2: two names against three pages yield the mismatch error
and leave the empty directory empty. -/
theorem c2_count_mismatch_iff_witness :
    isCountMismatch (split_pdf true [0, 1, 2] "o" ["a", "b"] ([] : FS Nat)) = true
    ∧ (split_pdf true [0, 1, 2] "o" ["a", "b"] ([] : FS Nat)).2 = ([] : FS Nat) := by
  have h := c2_count_mismatch_iff [0, 1, 2] ["a", "b"] "o" ([] : FS Nat) (by decide)
  exact ⟨h.1.mpr (by decide), h.2 (by decide)⟩

/-- C1, amended: for a valid job whose sanitized output paths are pairwise
distinct, the run succeeds, the output directory (initially empty) ends
with exactly `pageCount` files, and the file at the path for index `i`
holds exactly the single-page document made of source page `i`.  Without
the distinctness proviso the file count can be smaller: see the
counterexample. -/
theorem c1_split_writes_each_page (pages : List α) (names : List String)
    (folder : String) (_hne : names ≠ []) (hlen : names.length = pages.length)
    (hnodup : ((splitWrites folder pages names 0).map Prod.fst).Nodup) :
    (split_pdf true pages folder names ([] : FS α)).1 = Except.ok ()
    ∧ fsCount (split_pdf true pages folder names ([] : FS α)).2 = pages.length
    ∧ ∀ (i : Nat) (h1 : i < pages.length) (h2 : i < names.length),
        fsLookup (split_pdf true pages folder names ([] : FS α)).2
            (outPath folder (names.get ⟨i, h2⟩) i)
          = some [pages.get ⟨i, h1⟩] := by
  have hsp : split_pdf true pages folder names ([] : FS α)
      = (Except.ok (), applyWrites [] (splitWrites folder pages names 0)) := by
    simp [split_pdf, hlen]
  have happ : applyWrites ([] : FS α) (splitWrites folder pages names 0)
      = splitWrites folder pages names 0 :=
    applyWrites_append ([] : FS α) (splitWrites folder pages names 0) (by simpa using hnodup)
  refine ⟨by rw [hsp], ?_, ?_⟩
  · rw [hsp]
    show (applyWrites [] (splitWrites folder pages names 0)).length = pages.length
    rw [happ]
    exact splitWrites_length folder pages names 0 hlen
  · intro i h1 h2
    have hw : i < (splitWrites folder pages names 0).length := by
      rw [splitWrites_length folder pages names 0 hlen]; exact h1
    have hg := splitWrites_get folder pages names 0 i h1 h2 hw
    have hl := fsLookup_get (splitWrites folder pages names 0) hnodup i hw
    rw [hg] at hl
    rw [hsp]
    show fsLookup (applyWrites [] (splitWrites folder pages names 0)) _ = _
    rw [happ]
    simpa using hl

/-- Witness for C1: a two-page job with distinct names produces two files,
the first holding page one. -/
theorem c1_split_writes_each_page_witness :
    fsCount (split_pdf true [5, 6] "o" ["a", "b"] ([] : FS Nat)).2 = 2
    ∧ fsLookup (split_pdf true [5, 6] "o" ["a", "b"] ([] : FS Nat)).2 (outPath "o" "a" 0)
        = some [5] := by
  have h := c1_split_writes_each_page (α := Nat) [5, 6] ["a", "b"] "o" (by decide) rfl (by decide)
  exact ⟨h.2.1, by simpa using h.2.2 0 (by decide) (by decide)⟩

/-- C1, counterexample to `output file count equals pageCount`: a valid
two-page job whose two names coincide succeeds but leaves one file, not
two. -/
theorem c1_collision_count_counterexample :
    (["x", "x"] : List String) ≠ []
    ∧ (["x", "x"] : List String).length = ([0, 1] : List Nat).length
    ∧ (split_pdf true [0, 1] "o" ["x", "x"] ([] : FS Nat)).1 = Except.ok ()
    ∧ fsCount (split_pdf true [0, 1] "o" ["x", "x"] ([] : FS Nat)).2 = 1
    ∧ fsCount (split_pdf true [0, 1] "o" ["x", "x"] ([] : FS Nat)).2
        ≠ ([0, 1] : List Nat).length := by
  exact ⟨by decide, rfl, rfl, by decide, by decide⟩

/-- C7: the spec collision scenario.  A three-page source with names
`Invoice A`, `Invoice B`, `Invoice B` succeeds; the directory ends with
exactly two files; `Invoice A.pdf` holds page 1 and `Invoice B.pdf` holds
page 3, the second write to that path having silently replaced page 2. -/
theorem c7_collision_scenario :
    split_pdf true [10, 20, 30] "out" ["Invoice A", "Invoice B", "Invoice B"] ([] : FS Nat)
      = (Except.ok (), [("out/Invoice A.pdf", [10]), ("out/Invoice B.pdf", [30])])
    ∧ fsCount (split_pdf true [10, 20, 30] "out"
        ["Invoice A", "Invoice B", "Invoice B"] ([] : FS Nat)).2 = 2
    ∧ fsLookup (split_pdf true [10, 20, 30] "out"
        ["Invoice A", "Invoice B", "Invoice B"] ([] : FS Nat)).2 "out/Invoice A.pdf"
        = some [10]
    ∧ fsLookup (split_pdf true [10, 20, 30] "out"
        ["Invoice A", "Invoice B", "Invoice B"] ([] : FS Nat)).2 "out/Invoice B.pdf"
        = some [30] := by
  exact ⟨rfl, by decide, by decide, by decide⟩

/-! ## Helper lemmas about the encoding loop -/

theorem csvLoop_append_decodeErrors (attempt : Encoding → CsvOutcome β) :
    ∀ (pre rest : List Encoding),
    (∀ e ∈ pre, attempt e = CsvOutcome.decodeError) →
    csvLoop attempt (pre ++ rest) = csvLoop attempt rest := by
  intro pre
  induction pre with
  | nil => intro rest _; rfl
  | cons e pre ih =>
    intro rest h
    have he : attempt e = CsvOutcome.decodeError := h e (List.mem_cons_self e pre)
    show (match attempt e with
      | CsvOutcome.success b => CsvLoopExit.returned b
      | CsvOutcome.decodeError => csvLoop attempt (pre ++ rest)
      | CsvOutcome.otherError => CsvLoopExit.broke) = csvLoop attempt rest
    rw [he]
    exact ih rest (fun x hx => h x (List.mem_cons_of_mem e hx))

theorem csvAttempted_append_decodeErrors (attempt : Encoding → CsvOutcome β) :
    ∀ (pre rest : List Encoding),
    (∀ e ∈ pre, attempt e = CsvOutcome.decodeError) →
    csvAttempted attempt (pre ++ rest) = pre ++ csvAttempted attempt rest := by
  intro pre
  induction pre with
  | nil => intro rest _; rfl
  | cons e pre ih =>
    intro rest h
    have he : attempt e = CsvOutcome.decodeError := h e (List.mem_cons_self e pre)
    show (match attempt e with
      | CsvOutcome.decodeError => e :: csvAttempted attempt (pre ++ rest)
      | _ => [e]) = (e :: pre) ++ csvAttempted attempt rest
    rw [he, ih rest (fun x hx => h x (List.mem_cons_of_mem e hx))]
    rfl

theorem csvLoop_exhausted_all (attempt : Encoding → CsvOutcome β) :
    ∀ l, csvLoop attempt l = CsvLoopExit.exhausted →
    ∀ e ∈ l, attempt e = CsvOutcome.decodeError := by
  intro l
  induction l with
  | nil => intro _ e he; cases he
  | cons a l ih =>
    intro h e he
    cases ha : attempt a with
    | success b => simp [csvLoop, ha] at h
    | decodeError =>
      simp only [csvLoop, ha] at h
      rcases List.mem_cons.mp he with rfl | hm
      · exact ha
      · exact ih h e hm
    | otherError => simp [csvLoop, ha] at h

/-- C5: whenever the candidates before `e` all fail with a decoding error
and the attempt at `e` fails with any other error, the loop attempts
exactly the candidates through `e` (none after it), exits by `break`, and
the reader aborts with the unreadable-file error of line 96 — the error the
specification taxonomy files under `FormatError` for unparsable delimited
text. -/
theorem c5_csv_loop_abort {β : Type} (attempt : Encoding → CsvOutcome β)
    (pre post : List Encoding) (e : Encoding)
    (hpre : ∀ x ∈ pre, attempt x = CsvOutcome.decodeError)
    (he : attempt e = CsvOutcome.otherError) :
    csvAttempted attempt (pre ++ e :: post) = pre ++ [e]
    ∧ csvLoop attempt (pre ++ e :: post) = CsvLoopExit.broke
    ∧ ∀ (guess : Encoding) (excel : Except String β),
        encodingsToTry guess = pre ++ e :: post →
        read_name_file true FileExt.csv attempt guess excel
          = Except.error NameFileError.unreadable := by
  have hloop : csvLoop attempt (pre ++ e :: post) = CsvLoopExit.broke := by
    rw [csvLoop_append_decodeErrors attempt pre _ hpre]
    simp [csvLoop, he]
  refine ⟨?_, hloop, ?_⟩
  · rw [csvAttempted_append_decodeErrors attempt pre _ hpre]
    simp [csvAttempted, he]
  · intro guess excel hg
    simp [read_name_file, extIsCsv, extIsExcel, hg, hloop]

/-- Witness for C5: an attempt that immediately raises a non-decoding error
on the first candidate attempts only that candidate and makes the reader
fail with the line-96 error. -/
theorem c5_csv_loop_abort_witness :
    csvAttempted (fun _ => CsvOutcome.otherError (β := Unit)) (encodingsToTry Encoding.utf8)
      = [Encoding.utf8]
    ∧ read_name_file true FileExt.csv (fun _ => CsvOutcome.otherError (β := Unit))
        Encoding.utf8 (Except.ok ()) = Except.error NameFileError.unreadable := by
  have h := c5_csv_loop_abort (fun _ => CsvOutcome.otherError (β := Unit)) []
      [Encoding.gb18030, Encoding.gbk, Encoding.utf8, Encoding.utf16, Encoding.latin1]
      Encoding.utf8 (by intro x hx; cases hx) rfl
  exact ⟨h.1, h.2.2 Encoding.utf8 (Except.ok ()) rfl⟩

theorem char_toNat_ofNat (m : Nat) (h : m < 256) : (Char.ofNat m).toNat = m := by
  have hv : Nat.isValidChar m := Or.inl (by omega)
  rw [Char.ofNat, dif_pos hv]
  rfl

/-- C6: the candidate list always ends in `latin1`; the fixed `latin1`
decoder accepts every byte sample and preserves the bytes; consequently the
loop can never exhaust its candidates with decoding errors, whatever the
other decoders and the parser do — and the resolver itself, a total
function, never raises. -/
theorem c6_latin1_terminal_fallback {β : Type}
    (chardet : List Nat → Encoding) (sample : List Nat)
    (dec : Encoding → List Nat → Option String) (parse : String → Option β)
    (bytes : List Nat) :
    (encodingsToTry (detect_file_encoding chardet sample)).getLast? = some Encoding.latin1
    ∧ decodeWith dec Encoding.latin1 bytes = some (latin1Decode bytes)
    ∧ ((∀ b ∈ bytes, b < 256) → (latin1Decode bytes).toList.map Char.toNat = bytes)
    ∧ csvLoop (mkAttempt dec parse bytes)
        (encodingsToTry (detect_file_encoding chardet sample)) ≠ CsvLoopExit.exhausted := by
  refine ⟨rfl, rfl, ?_, ?_⟩
  · intro hb
    show (bytes.map (fun b => Char.ofNat (b % 256))).map Char.toNat = bytes
    rw [List.map_map]
    conv_rhs => rw [← List.map_id bytes]
    apply List.map_congr_left
    intro b hbm
    have hlt : b % 256 < 256 := Nat.mod_lt b (by norm_num)
    have hsm : b % 256 = b := Nat.mod_eq_of_lt (hb b hbm)
    show (Char.ofNat (b % 256)).toNat = b
    rw [char_toNat_ofNat (b % 256) hlt, hsm]
  · intro hex
    have hlat : Encoding.latin1 ∈ encodingsToTry (detect_file_encoding chardet sample) := by
      simp [encodingsToTry]
    have hall := csvLoop_exhausted_all (mkAttempt dec parse bytes) _ hex Encoding.latin1 hlat
    have h2 : mkAttempt dec parse bytes Encoding.latin1 ≠ CsvOutcome.decodeError := by
      show (match decodeWith dec Encoding.latin1 bytes with
        | none => CsvOutcome.decodeError
        | some s =>
          match parse s with
          | some b => CsvOutcome.success b
          | none => CsvOutcome.otherError) ≠ CsvOutcome.decodeError
      rw [show decodeWith dec Encoding.latin1 bytes = some (latin1Decode bytes) from rfl]
      cases hp : parse (latin1Decode bytes) <;> simp [hp]
    exact h2 hall

/-- Witness for C6: concrete bytes round-trip through the `latin1` decoder
and the loop does not exhaust even when every abstract decoder fails and
the parser rejects everything. -/
theorem c6_latin1_terminal_fallback_witness :
    (latin1Decode [65, 255]).toList.map Char.toNat = [65, 255]
    ∧ csvLoop (mkAttempt (fun _ _ => none) (fun _ => (none : Option Unit)) [65, 255])
        (encodingsToTry (detect_file_encoding (fun _ => Encoding.utf8) []))
        ≠ CsvLoopExit.exhausted := by
  have h := c6_latin1_terminal_fallback (fun _ => Encoding.utf8) [] (fun _ _ => none)
      (fun _ => (none : Option Unit)) [65, 255]
  exact ⟨h.2.2.1 (by decide), h.2.2.2⟩

/-- C8, counterexample to the claimed distinctness: an existing path with
an unrecognized extension and an existing `.csv` path whose parse fails
with a non-decoding error reach the same raise, producing identical
errors. -/
theorem c8_error_not_distinct_counterexample :
    read_name_file true (FileExt.other "txt") (fun _ => CsvOutcome.otherError (β := Unit))
        Encoding.utf8 (Except.ok ()) = Except.error NameFileError.unreadable
    ∧ read_name_file true FileExt.csv (fun _ => CsvOutcome.otherError (β := Unit))
        Encoding.utf8 (Except.ok ()) = Except.error NameFileError.unreadable
    ∧ read_name_file true (FileExt.other "txt") (fun _ => CsvOutcome.otherError (β := Unit))
          Encoding.utf8 (Except.ok ())
      = read_name_file true FileExt.csv (fun _ => CsvOutcome.otherError (β := Unit))
          Encoding.utf8 (Except.ok ()) :=
  ⟨rfl, rfl, rfl⟩

/-- C8, amended: an existing names path with an extension that is neither
`.csv` nor `.xls`/`.xlsx` fails with the generic line-96 error — the same
error value the reader produces for unparsable delimited text, distinct
only from the spreadsheet error of line 94. -/
theorem c8_unreadable_amended {β : Type} (s : String)
    (attempt : Encoding → CsvOutcome β) (guess : Encoding) (excel : Except String β) :
    read_name_file true (FileExt.other s) attempt guess excel
      = Except.error NameFileError.unreadable
    ∧ (∀ msg : String, NameFileError.unreadable ≠ NameFileError.excelFailed msg)
    ∧ ∀ msg : String,
        read_name_file true (FileExt.other s) attempt guess excel
          ≠ Except.error (NameFileError.excelFailed msg) := by
  have h1 : read_name_file true (FileExt.other s) attempt guess excel
      = Except.error NameFileError.unreadable := by
    simp [read_name_file, extIsCsv, extIsExcel]
  refine ⟨h1, ?_, ?_⟩
  · intro msg h
    exact NameFileError.noConfusion h
  · intro msg
    rw [h1]
    intro h
    exact NameFileError.noConfusion (Except.error.inj h)

/-- Witness for C8: a `.dat` path fails with the line-96 error. -/
theorem c8_unreadable_amended_witness :
    read_name_file true (FileExt.other "dat") (fun _ => CsvOutcome.decodeError (β := Unit))
      Encoding.gbk (Except.ok ()) = Except.error NameFileError.unreadable :=
  (c8_unreadable_amended "dat" (fun _ => CsvOutcome.decodeError (β := Unit))
    Encoding.gbk (Except.ok ())).1

/-! ## The first-row and empty-cell behavior of the name source -/

/-- C4, counterexample: a two-row table whose first row holds `A` and whose
second holds `B` parses to a NameList of just `B` — the first row was
consumed as the header, so index 0 does not hold the first row value `A`,
which appears nowhere. -/
theorem c4_first_row_counterexample :
    Option.map firstColumnNames (pandasReadTable [[some "A"], [some "B"]]) = some ["B"]
    ∧ Option.map firstColumnNames (pandasReadTable [[some "A"], [some "B"]])
        ≠ some ["A", "B"]
    ∧ ((Option.map firstColumnNames
        (pandasReadTable [[some "A"], [some "B"]])).getD []).getD 0 "" ≠ "A" := by
  exact ⟨rfl, by decide, by decide⟩

/-- C4, amended: the table readers consume the first raw row as the column
header, so the NameList is the first-column values of the remaining rows
in order: the first row is never part of the data. -/
theorem c4_header_amended (hrow : List (Option String))
    (rows : List (List (Option String))) :
    pandasReadTable (hrow :: rows) = some (DataFrame.mk hrow rows)
    ∧ Option.map firstColumnNames (pandasReadTable (hrow :: rows))
        = some (rows.map (fun r => pdAstypeStr (r.getD 0 none)))
    ∧ pandasReadTable [] = none := by
  exact ⟨rfl, rfl, rfl⟩

/-- C9: an empty first-column cell is coerced to the literal string `nan`,
which sanitizes to itself (never to the `page_<i>` fallback), so every row
with an empty first cell maps to the single output path
`<folder>/nan.pdf`, whatever its index — and such cells do enter the
NameList as `nan`. -/
theorem c9_nan_name (i j : Nat) (folder : String) :
    pdAstypeStr none = "nan"
    ∧ sanitize (pdAstypeStr none) (i + 1) = "nan"
    ∧ sanitize (pdAstypeStr none) (i + 1) ≠ "page_" ++ toString (i + 1)
    ∧ outPath folder (pdAstypeStr none) i = folder ++ "/" ++ "nan" ++ ".pdf"
    ∧ outPath folder (pdAstypeStr none) i = outPath folder (pdAstypeStr none) j
    ∧ ∀ (hdr : List (Option String)) (rows : List (List (Option String)))
        (r : List (Option String)), r ∈ rows → r.getD 0 none = none →
        "nan" ∈ firstColumnNames (DataFrame.mk hdr rows) := by
  have hs : ∀ k : Nat, sanitize (pdAstypeStr none) k = "nan" := by
    intro k
    show sanitize "nan" k = "nan"
    rw [sanitize, if_neg (by decide)]
    rfl
  have hne : ∀ k : Nat, sanitize (pdAstypeStr none) k ≠ "page_" ++ toString k := by
    intro k h
    rw [hs k] at h
    have h2 := congrArg (fun s : String => s.data.head?) h
    have h3 : (some 'n' : Option Char) = some 'p' := h2
    exact absurd h3 (by decide)
  refine ⟨rfl, hs (i + 1), hne (i + 1), ?_, ?_, ?_⟩
  · show folder ++ "/" ++ sanitize (pdAstypeStr none) (i + 1) ++ ".pdf" = _
    rw [hs (i + 1)]
  · show folder ++ "/" ++ sanitize (pdAstypeStr none) (i + 1) ++ ".pdf"
      = folder ++ "/" ++ sanitize (pdAstypeStr none) (j + 1) ++ ".pdf"
    rw [hs (i + 1), hs (j + 1)]
  · intro hdr rows r hr h0
    have hm : pdAstypeStr (r.getD 0 none)
        ∈ List.map (fun r => pdAstypeStr (r.getD 0 none)) rows :=
      List.mem_map_of_mem (fun r => pdAstypeStr (r.getD 0 none)) hr
    rw [h0] at hm
    exact hm

/-- Witness for C9: a one-row table with an empty cell yields the name
`nan`, which sanitizes to `nan`. -/
theorem c9_nan_name_witness :
    sanitize (pdAstypeStr none) 1 = "nan"
    ∧ "nan" ∈ firstColumnNames (DataFrame.mk [] [[none]]) := by
  have h := c9_nan_name 0 1 "o"
  exact ⟨h.2.1, h.2.2.2.2.2 [] [[none]] [none] (by decide) rfl⟩

end PDFSplitter
